import Mathlib

/-!
Verification of the codypy JSON-RPC transport layer (`codypy/messaging.py`,
`codypy/server.py`, `codypy/exceptions.py`) against its natural-language
specification.  The Python source is shallowly embedded: the module-level
message-id counter becomes explicit state passing, the asyncio byte stream
becomes a list of byte values, and raised Python exceptions become values of
explicit error types.
-/

namespace Codypy

/-! ## Send side (`_send_jsonrpc_request`, messaging.py lines 16-47)

The Python code builds the request dict, serializes it with
`pd.to_json(message).decode()` (a compact JSON string; pydantic-core emits
non-ASCII characters raw, without escaping), measures
`content_length = len(json_message)` on the *decoded string* (a character
count), prepends the `Content-Length` header, encodes the whole message as
UTF-8, writes it, awaits `writer.drain()`, and only then executes
`MESSAGE_ID += 1`.
-/

/-- Number of bytes of the UTF-8 encoding of one character. -/
def utf8Len (c : Char) : Nat :=
  if c.toNat < 128 then 1
  else if c.toNat < 2048 then 2
  else if c.toNat < 65536 then 3
  else 4

/-- Number of bytes of the UTF-8 encoding of a character sequence. -/
def utf8ByteLen (s : List Char) : Nat := (s.map utf8Len).sum

/-- Compact JSON serialization of the request dict built in
`_send_jsonrpc_request`:
`pd.to_json({"jsonrpc": "2.0", "id": MESSAGE_ID, "method": method, "params": params})`.
`params` stands for the already-serialized JSON text of the params value. -/
def jsonSerialize (messageId : Nat) (method params : String) : String :=
  "\x7b\"jsonrpc\":\"2.0\",\"id\":" ++ Nat.repr messageId ++
    ",\"method\":\"" ++ method ++ "\",\"params\":" ++ params ++ "\x7d"

/-- SOURCE (messaging.py line 40): `content_length: int = len(json_message)`.
Python `len` on a `str` counts characters, not encoded bytes. -/
def content_length (json_message : String) : Nat := json_message.length

/-- SOURCE (messaging.py line 41): the full framed message
`f"Content-Length: {content_length}\r\n\r\n{json_message}"`. -/
def content_message (json_message : String) : String :=
  "Content-Length: " ++ Nat.repr (content_length json_message) ++
    "\r\n\r\n" ++ json_message

/-- SOURCE (messaging.py line 10): module-level `MESSAGE_ID = 1`. -/
def MESSAGE_ID : Nat := 1

/-- One call of `_send_jsonrpc_request`, with the global counter passed as
explicit state.  `drainOk = false` models `writer.write` / `writer.drain`
raising: the exception propagates before `MESSAGE_ID += 1` runs, so the
returned counter state is unchanged.  On success the result carries the id
used on the wire and the framed message text; the counter state is
incremented. -/
def send_jsonrpc_request (messageId : Nat) (method params : String)
    (drainOk : Bool) : Except Unit (Nat × String) × Nat :=
  let jm := jsonSerialize messageId method params
  let cm := content_message jm
  if drainOk then (Except.ok (messageId, cm), messageId + 1)
  else (Except.error (), messageId)

/-- N sequential successful sends starting from counter state `c`: the list of
request ids observed on the wire, one per method in `ms`. -/
def runSends : Nat → List String → List Nat
  | _, [] => []
  | c, m :: ms =>
    match send_jsonrpc_request c m "null" true with
    | (Except.ok (idUsed, _), cNext) => idUsed :: runSends cNext ms
    | (Except.error _, cNext) => runSends cNext ms

/-! ## Receive side (`_receive_jsonrpc_messages`, messaging.py lines 49-71)

The Python code does
`headers = await asyncio.wait_for(reader.readuntil(b"\r\n\r\n"), timeout=5.0)`,
then `content_length = int(headers.decode("utf-8").split("Content-Length:")[1].strip())`,
then `json_data = await asyncio.wait_for(reader.readexactly(content_length), timeout=5.0)`.

The stream is embedded as the list of byte values currently available, with no
further data arriving; a read that would keep waiting therefore hits the
5-second `wait_for` bound and raises `asyncio.TimeoutError`.  The other raise
sites: `split("Content-Length:")[1]` raises `IndexError` when the separator
does not occur in the header block, and `int(...)` raises `ValueError` when
the stripped text is not a decimal numeral.  No exception handling wraps
these, so they propagate as those builtin exception types.  Header bytes are
ASCII on every path exercised here, so the byte-level split below coincides
with Python's split on the decoded string. -/

/-- Exceptions that can escape `_receive_jsonrpc_messages`.  These are Python
builtins; none of them is a class defined in `codypy/exceptions.py`. -/
inductive RecvErr
  | timeoutError
  | indexError
  | valueError
deriving DecidableEq

/-- The byte values of an ASCII string. -/
def asciiBytes (s : String) : List Nat := s.data.map Char.toNat

/-- The frame header terminator `b"\r\n\r\n"`. -/
def TERM : List Nat := [13, 10, 13, 10]

/-- The header field separator `"Content-Length:"` as bytes. -/
def CLPAT : List Nat := asciiBytes "Content-Length:"

/-- Does `pat` occur at the very start of `s` (with `s` long enough)? -/
def leadsWith : List Nat → List Nat → Bool
  | [], _ => true
  | _ :: _, [] => false
  | a :: as, b :: bs => a == b && leadsWith as bs

/-- Index of the first occurrence of `pat` inside `s`, the occurrence lying
entirely within `s`. -/
def findSeq (pat : List Nat) : List Nat → Option Nat
  | [] => if pat = [] then some 0 else none
  | b :: bs =>
    if leadsWith pat (b :: bs) then some 0
    else (findSeq pat bs).map (· + 1)

/-- `reader.readuntil(b"\r\n\r\n")`: split the stream after the first
terminator, returning the consumed bytes (terminator included) and the rest.
`none`: the terminator never arrives, so `wait_for` times out. -/
def readUntilTerm (s : List Nat) : Option (List Nat × List Nat) :=
  (findSeq TERM s).map fun i => (s.take (i + TERM.length), s.drop (i + TERM.length))

/-- Python `s.split(sep)[1]`: the piece between the first occurrence of `sep`
and the following occurrence (or the end).  `none` models the `IndexError`
when `sep` does not occur. -/
def splitPart1 (sep s : List Nat) : Option (List Nat) :=
  (findSeq sep s).map fun i =>
    let rest := s.drop (i + sep.length)
    match findSeq sep rest with
    | some j => rest.take j
    | none => rest

/-- Python whitespace recognized by `str.strip()`. -/
def isSpaceByte (b : Nat) : Bool :=
  b = 32 || b = 9 || b = 10 || b = 13 || b = 11 || b = 12

/-- Python `s.strip()`: remove leading and trailing whitespace. -/
def stripBytes (s : List Nat) : List Nat :=
  ((s.dropWhile isSpaceByte).reverse.dropWhile isSpaceByte).reverse

/-- Python `int(s)` restricted to the shapes this codec meets: a non-empty
run of decimal digit bytes parses to its value, anything else raises
`ValueError` (`none`). -/
def parseDigits (s : List Nat) : Option Nat :=
  if s ≠ [] && s.all (fun b => 48 ≤ b && b ≤ 57) then
    some (s.foldl (fun acc b => acc * 10 + (b - 48)) 0)
  else none

/-- SOURCE (messaging.py lines 64-66):
`int(headers.decode("utf-8").split("Content-Length:")[1].strip())`. -/
def parseContentLength (headers : List Nat) : Except RecvErr Nat :=
  match splitPart1 CLPAT headers with
  | none => Except.error RecvErr.indexError
  | some part =>
    match parseDigits (stripBytes part) with
    | none => Except.error RecvErr.valueError
    | some n => Except.ok n

/-- `reader.readexactly(n)`: consume exactly `n` bytes.  `none`: not enough
bytes ever arrive, so `wait_for` times out. -/
def readExactly (n : Nat) (s : List Nat) : Option (List Nat × List Nat) :=
  if n ≤ s.length then some (s.take n, s.drop n) else none

/-- `_receive_jsonrpc_messages` on the available bytes: returns the decoded
frame body and the stream bytes left unconsumed, or the escaping exception. -/
def receive_jsonrpc_messages (s : List Nat) : Except RecvErr (List Nat × List Nat) :=
  match readUntilTerm s with
  | none => Except.error RecvErr.timeoutError
  | some (headers, rest) =>
    match parseContentLength headers with
    | Except.error e => Except.error e
    | Except.ok n =>
      match readExactly n rest with
      | none => Except.error RecvErr.timeoutError
      | some (body, rest2) => Except.ok (body, rest2)

/-- The exception class names defined in `codypy/exceptions.py`, in source
order. -/
def codypyExceptionNames : List String :=
  ["CodyPyError", "AgentAuthenticationError", "AgentBinaryDownloadError",
   "AgentBinaryNotFoundError", "ServerTCPConnectionError"]

/-! ## Response handling and correlation
(`_handle_server_respones`, `request_response`, messaging.py lines 73-302)

`_handle_server_respones` loops `response = await _receive_jsonrpc_messages(...)`
/ `yield pd.from_json(response)` forever; the sole `except asyncio.TimeoutError`
around the loop yields `pd.from_json("{}")` (the empty dict) and then ends the
generator.  The frames successfully received before the eventual timeout are
embedded as an already-parsed list of objects.

`request_response` sends the request, then iterates the generator.  For each
yielded `response` it only logs/prints when a `method` key is present, and
returns `response["result"]` as soon as `response and await _has_result(response)`
holds; a non-empty dict is truthy in Python, and any dict with a `"result"`
key is non-empty, so the guard is equivalent to the `"result"`-key test on the
frames met here.  When the generator is exhausted it returns `None`.  Nothing
in the loop reads an `"id"` or an `"error"` key. -/

/-- A parsed JSON-RPC frame, restricted to the keys the transport inspects.
`result` and `error` payloads are opaque JSON text (the transport never looks
inside them; a JSON-null `result` is not modelled). -/
structure JsonObj where
  id : Option Nat := none
  method : Option String := none
  result : Option String := none
  error : Option (Int × String) := none
deriving DecidableEq

/-- `pd.from_json("{}")`: the empty dict. -/
def emptyObj : JsonObj := {}

/-- SOURCE (messaging.py lines 100-110): `_has_method`. -/
def has_method (o : JsonObj) : Bool := o.method.isSome

/-- SOURCE (messaging.py lines 113-123): `_has_result`. -/
def has_result (o : JsonObj) : Bool := o.result.isSome

/-- Python truthiness of the parsed dict: non-empty. -/
def jsonTruthy (o : JsonObj) : Bool :=
  o.id.isSome || o.method.isSome || o.result.isSome || o.error.isSome

/-- SOURCE (messaging.py lines 73-97): the sequence of objects the generator
yields, given the frames received before the eventual read timeout: every
parsed frame in order, then — when the timeout fires — one empty dict, after
which the generator ends.  The `asyncio.TimeoutError` from
`_receive_jsonrpc_messages` is caught here and never propagates. -/
def handle_server_respones (frames : List JsonObj) : List JsonObj :=
  frames ++ [emptyObj]

/-- The `async for` body of `request_response`: return `response["result"]`
at the first yielded object satisfying `response and _has_result(response)`;
`None` when the generator ends. -/
def request_response_loop : List JsonObj → Option String
  | [] => none
  | o :: rest =>
    if jsonTruthy o && has_result o then o.result
    else request_response_loop rest

/-- SOURCE (messaging.py lines 248-302): `request_response` after the send,
fed by `_handle_server_respones`. -/
def request_response (frames : List JsonObj) : Option String :=
  request_response_loop (handle_server_respones frames)

/-- A whole `request_response` call including `_send_jsonrpc_request`:
given the counter state and the frames the peer delivers, returns
(id sent on the wire, counter state after, returned value). -/
def request_response_full (messageId : Nat) (method params : String)
    (frames : List JsonObj) : Nat × Nat × Option String :=
  match send_jsonrpc_request messageId method params true with
  | (_, cNext) => (messageId, cNext, request_response frames)

/-- A notification frame: `method` and no `id`. -/
def mkNotification (method : String) : JsonObj := { method := some method }

/-- A response frame carrying a `result`. -/
def mkResponse (id : Nat) (result : String) : JsonObj :=
  { id := some id, result := some result }

/-- A response frame carrying an `error` envelope instead of a `result`. -/
def mkErrorResponse (id : Nat) (code : Int) (message : String) : JsonObj :=
  { id := some id, error := some (code, message) }

/-! ## Connection establishment (`CodyServer._create_server_connection`,
server.py lines 106-148) and shutdown (`cleanup_server`, server.py lines
150-158 and cody_py.py lines 217-225)

The TCP branch runs `for retry in range(retry_attempts)` with
`retry_attempts = 5`.  Each iteration tries `asyncio.open_connection(host,
port)` and breaks on success; `except ConnectionRefusedError` sleeps 1 second,
sets `retry += 1` (equal to the loop index plus one; the for loop overwrites
it on the next pass), and raises `ServerTCPConnectionError` when that value
reaches `retry_attempts`, else continues. -/

/-- The exception classes of `codypy/exceptions.py`, all deriving
`CodyPyError`. -/
inductive CodypyException
  | codyPyError
  | agentAuthenticationError
  | agentBinaryDownloadError
  | agentBinaryNotFoundError
  | serverTCPConnectionError
deriving DecidableEq

/-- SOURCE (server.py line 108): `retry_attempts: int = 5`. -/
def retry_attempts : Nat := 5

/-- Result of the TCP connect loop.  `connected attemptsUsed sleeps`: the
break was reached after that many `open_connection` attempts and that many
1-second sleeps.  `fellThrough` would be the loop running out of iterations
without break or raise; with `range retry_attempts` the refusal of the last
iteration always raises, so it is unreachable. -/
inductive ConnOutcome
  | connected (attemptsUsed sleeps : Nat)
  | fellThrough (sleeps : Nat)
deriving DecidableEq

/-- The `for retry in range(retry_attempts)` loop over the remaining loop
indices, `refused k = true` meaning attempt with index `k` raises
`ConnectionRefusedError`. -/
def tcpConnectIter (refused : Nat → Bool) : List Nat → Nat → Except CodypyException ConnOutcome
  | [], sleeps => Except.ok (ConnOutcome.fellThrough sleeps)
  | r :: rest, sleeps =>
    if refused r then
      if r + 1 == retry_attempts then Except.error CodypyException.serverTCPConnectionError
      else tcpConnectIter refused rest (sleeps + 1)
    else Except.ok (ConnOutcome.connected (r + 1) sleeps)

/-- SOURCE (server.py lines 117-148): the whole TCP connect-with-retry
phase. -/
def tcpConnect (refused : Nat → Bool) : Except CodypyException ConnOutcome :=
  tcpConnectIter refused (List.range retry_attempts) 0

/-! `cleanup_server` (identical in server.py and cody_py.py):
`await _send_jsonrpc_request(self._writer, "shutdown", None)`, then
`if self._process.returncode is None: self._process.terminate()`, then
`await self._process.wait()`. -/

/-- Child process state: `returncode = none` while it is still alive. -/
structure ProcState where
  returncode : Option Int
deriving DecidableEq

/-- The observable steps of `cleanup_server`, in execution order. -/
inductive CleanupStep
  | sendShutdown
  | terminate
  | waitExit
deriving DecidableEq

/-- SOURCE (server.py lines 150-158 / cody_py.py lines 217-225):
`cleanup_server` as the ordered list of steps it performs on a process in
state `p`, together with the process state when it returns.  `wait()` blocks
until the child has exited, so the final `returncode` is always set (`-15`
standing for death by the SIGTERM that `terminate()` delivered). -/
def cleanup_server (p : ProcState) : List CleanupStep × ProcState :=
  let steps :=
    [CleanupStep.sendShutdown] ++
      (if p.returncode = none then [CleanupStep.terminate] else []) ++
      [CleanupStep.waitExit]
  (steps, { returncode := some (p.returncode.getD (-15)) })

/-! ## Helper lemmas -/

/-- A successful start-match needs the pattern to fit. -/
theorem leadsWith_length {p u : List Nat} (h : leadsWith p u = true) :
    p.length ≤ u.length := by
  induction p generalizing u with
  | nil => simp
  | cons a as ih =>
    cases u with
    | nil => simp [leadsWith] at h
    | cons b bs =>
      rw [leadsWith, Bool.and_eq_true] at h
      simpa using ih h.2

/-- A start-match survives appending on the right. -/
theorem leadsWith_append_true {p u : List Nat} (t : List Nat)
    (h : leadsWith p u = true) : leadsWith p (u ++ t) = true := by
  induction p generalizing u with
  | nil => rw [leadsWith]
  | cons a as ih =>
    cases u with
    | nil => simp [leadsWith] at h
    | cons b bs =>
      rw [leadsWith, Bool.and_eq_true] at h
      rw [List.cons_append, leadsWith, Bool.and_eq_true]
      exact ⟨h.1, ih h.2⟩

/-- A failed start-match of a pattern that fits survives appending on the
right. -/
theorem leadsWith_append_false {p u : List Nat} (t : List Nat)
    (hlen : p.length ≤ u.length) (h : leadsWith p u = false) :
    leadsWith p (u ++ t) = false := by
  induction p generalizing u with
  | nil => rw [leadsWith] at h; exact absurd h (by simp)
  | cons a as ih =>
    cases u with
    | nil => simp at hlen
    | cons b bs =>
      rw [leadsWith] at h
      rw [List.cons_append, leadsWith]
      rcases Bool.and_eq_false_iff.mp h with h' | h'
      · rw [h', Bool.false_and]
      · rw [ih (by simpa using hlen) h', Bool.and_false]

/-- A found occurrence lies entirely inside the searched list. -/
theorem findSeq_length {p s : List Nat} {i : Nat} (h : findSeq p s = some i) :
    i + p.length ≤ s.length := by
  induction s generalizing i with
  | nil =>
    rw [findSeq] at h
    by_cases hp : p = []
    · rw [if_pos hp] at h
      obtain rfl : (0 : Nat) = i := Option.some.inj h
      simp [hp]
    · rw [if_neg hp] at h
      exact absurd h (by simp)
  | cons b bs ih =>
    rw [findSeq] at h
    by_cases hl : leadsWith p (b :: bs) = true
    · rw [if_pos hl] at h
      obtain rfl : (0 : Nat) = i := Option.some.inj h
      simpa using leadsWith_length hl
    · rw [if_neg hl] at h
      obtain ⟨j, hj, rfl⟩ := Option.map_eq_some'.mp h
      have := ih hj
      simp only [List.length_cons]
      omega

/-- The index of the first occurrence is stable under appending on the
right. -/
theorem findSeq_append {p s : List Nat} {i : Nat} (t : List Nat)
    (h : findSeq p s = some i) : findSeq p (s ++ t) = some i := by
  induction s generalizing i with
  | nil =>
    rw [findSeq] at h
    by_cases hp : p = []
    · rw [if_pos hp] at h
      obtain rfl : (0 : Nat) = i := Option.some.inj h
      subst hp
      cases t with
      | nil => rw [List.nil_append, findSeq, if_pos rfl]
      | cons x xs =>
        rw [List.nil_append, findSeq, if_pos]
        rw [leadsWith]
    · rw [if_neg hp] at h
      exact absurd h (by simp)
  | cons b bs ih =>
    rw [findSeq] at h
    by_cases hl : leadsWith p (b :: bs) = true
    · rw [if_pos hl] at h
      obtain rfl : (0 : Nat) = i := Option.some.inj h
      rw [List.cons_append, findSeq, if_pos (by simpa using leadsWith_append_true t hl)]
    · rw [if_neg hl] at h
      obtain ⟨j, hj, rfl⟩ := Option.map_eq_some'.mp h
      have hfit : p.length ≤ bs.length := by
        have := findSeq_length hj; omega
      have hl' : leadsWith p ((b :: bs) ++ t) = false := by
        have : p.length ≤ (b :: bs).length := by simp; omega
        exact leadsWith_append_false t this (Bool.eq_false_iff.mpr hl)
      rw [List.cons_append] at hl'
      rw [List.cons_append, findSeq, if_neg (by simp [hl']), ih hj]
      rfl

/-- When the first header terminator closes the header block, the receive
splits the stream there and proceeds on the declared length. -/
theorem receive_split (hdr tail : List Nat)
    (hterm : findSeq TERM (hdr ++ TERM) = some hdr.length) :
    receive_jsonrpc_messages (hdr ++ TERM ++ tail) =
      match parseContentLength (hdr ++ TERM) with
      | Except.error e => Except.error e
      | Except.ok n =>
        match readExactly n tail with
        | none => Except.error RecvErr.timeoutError
        | some (body, rest2) => Except.ok (body, rest2) := by
  have h1 : findSeq TERM (hdr ++ TERM ++ tail) = some hdr.length :=
    findSeq_append tail hterm
  have hlen : (hdr ++ TERM).length = hdr.length + TERM.length := by simp
  have htake : (hdr ++ TERM ++ tail).take (hdr.length + TERM.length) = hdr ++ TERM :=
    List.take_left' hlen
  have hdrop : (hdr ++ TERM ++ tail).drop (hdr.length + TERM.length) = tail :=
    List.drop_left' hlen
  rw [receive_jsonrpc_messages, readUntilTerm, h1, Option.map_some', htake, hdrop]

/-- A frame without a `result` key is skipped by the correlation loop. -/
theorem request_response_loop_skip (o : JsonObj) (rest : List JsonObj)
    (h : o.result = none) :
    request_response_loop (o :: rest) = request_response_loop rest := by
  simp [request_response_loop, has_result, h]

/-- If no delivered frame carries a `result` key, the call returns `None`. -/
theorem request_response_none (frames : List JsonObj)
    (h : ∀ f ∈ frames, f.result = none) : request_response frames = none := by
  rw [request_response, handle_server_respones]
  induction frames with
  | nil => rfl
  | cons f fs ih =>
    rw [List.cons_append, request_response_loop_skip f _ (h f (by simp))]
    exact ih fun g hg => h g (by simp [hg])

/-- Sequential successful sends from counter state `c` put the ids
`c, c+1, ...` on the wire. -/
theorem runSends_eq_range (ms : List String) :
    ∀ c : Nat, runSends c ms = List.range' c ms.length := by
  induction ms with
  | nil => intro c; rfl
  | cons m ms ih =>
    intro c
    rw [runSends, List.length_cons, List.range'_succ]
    simpa [send_jsonrpc_request] using ih (c + 1)

/-! ## Claims -/

/-- Claim C1, counterexample.  The claim states that a response frame whose
`id` differs from the id of the request just sent is treated as a framing
error, the call returning only once the matching id is seen.  At the concrete
input below the request goes out with id 1, the only delivered frame is a
response with id 999, and the call returns that frame's result normally: no
mismatch is detected or surfaced. -/
theorem C1_counterexample :
    request_response_full 1 "chat/submitMessage" "null" [mkResponse 999 "\"ok\""] =
      (1, 2, some "\"ok\"")
    ∧ (999 : Nat) ≠ 1 :=
  ⟨by decide, by decide⟩

/-- Claim C1, amended.  `request_response` performs no id correlation at all:
it skips every frame lacking a `result` key (notifications among them,
without satisfying the pending call) and returns the result of the first
frame that carries a `result` key, whatever its `id` is. -/
theorem C1_first_result_wins (notifs : List JsonObj) (resp : JsonObj)
    (later : List JsonObj) (v : String)
    (hn : ∀ f ∈ notifs, f.result = none) (hr : resp.result = some v) :
    request_response (notifs ++ resp :: later) = some v := by
  induction notifs with
  | nil =>
    rw [request_response, handle_server_respones, List.nil_append]
    have ht : (jsonTruthy resp && has_result resp) = true := by
      rw [jsonTruthy, has_result, hr]; simp
    simp only [request_response_loop]
    rw [if_pos ht, hr]
  | cons f fs ih =>
    rw [request_response, handle_server_respones, List.cons_append,
      List.cons_append, request_response_loop_skip f _ (hn f (by simp))]
    have := ih fun g hg => hn g (by simp [hg])
    rwa [request_response, handle_server_respones] at this

/-- Witness for the amended C1: one interleaved notification, then a response
whose id (999) matches nothing — the call still returns its result. -/
theorem C1_first_result_wins_witness :
    request_response [mkNotification "debug/message", mkResponse 999 "\"ok\""] =
      some "\"ok\"" :=
  C1_first_result_wins [mkNotification "debug/message"] (mkResponse 999 "\"ok\"")
    [] "\"ok\"" (by decide) (by decide)

/-- Claim C2, code bug.  The claim (and the wire protocol) requires the
declared `Content-Length` to equal the UTF-8 byte count of the body.
`_send_jsonrpc_request` computes `len(json_message)` on the decoded string —
a character count — and then encodes the message as UTF-8.  On a body
containing the two-byte character `é` the declared length (67) is one short
of the encoded byte count (68); the module's own receive side
(`readexactly(content_length)`) counts bytes, so such a frame is misframed by
the code's own decoder. -/
theorem C2_content_length_counts_chars :
    content_length (jsonSerialize 1 "chat/submitMessage" "\"é\"") = 67
    ∧ utf8ByteLen (jsonSerialize 1 "chat/submitMessage" "\"é\"").data = 68
    ∧ content_length (jsonSerialize 1 "chat/submitMessage" "\"é\"") ≠
        utf8ByteLen (jsonSerialize 1 "chat/submitMessage" "\"é\"").data :=
  ⟨by decide, by decide, by decide⟩

/-- Claim C3, counterexample.  The claim states that when no complete frame
arrives within the 5-second per-read timeout the call raises `TimeoutError`.
The read itself does time out (first conjunct: an incomplete header makes
`_receive_jsonrpc_messages` raise `asyncio.TimeoutError`), but
`_handle_server_respones` catches that exception, yields one empty dict and
ends the generator, so `request_response` returns the value `None` instead of
raising (second conjunct: no frames before the timeout, result `none`). -/
theorem C3_counterexample :
    receive_jsonrpc_messages [] = Except.error RecvErr.timeoutError
    ∧ request_response [] = none :=
  ⟨rfl, by decide⟩

/-- Claim C3, amended.  If the header terminator never arrives, the frame
read fails with `asyncio.TimeoutError`; the generator swallows it, so a call
that never sees a frame with a `result` key returns `None` — it terminates
rather than blocking indefinitely, but by returning a value, not by
raising. -/
theorem C3_timeout_returns_none (s : List Nat) (frames : List JsonObj)
    (hs : findSeq TERM s = none) (hf : ∀ f ∈ frames, f.result = none) :
    receive_jsonrpc_messages s = Except.error RecvErr.timeoutError
    ∧ request_response frames = none := by
  constructor
  · rw [receive_jsonrpc_messages, readUntilTerm, hs]
    rfl
  · exact request_response_none frames hf

/-- Witness for the amended C3: a truncated header times out, and a call that
saw only a notification frame returns `None`. -/
theorem C3_timeout_returns_none_witness :
    receive_jsonrpc_messages (asciiBytes "Content-Le") =
      Except.error RecvErr.timeoutError
    ∧ request_response [mkNotification "debug/message"] = none :=
  C3_timeout_returns_none (asciiBytes "Content-Le")
    [mkNotification "debug/message"] (by decide) (by decide)

/-- Claim C4, counterexample.  The claim states that a matching response
carrying an `error` envelope makes the call fail with
`RemoteError{code, message}`.  At the concrete input below the peer answers
request id 1 with an error envelope for id 1; the call returns the value
`None` normally, and no `RemoteError` class exists anywhere in
`codypy/exceptions.py`. -/
theorem C4_counterexample :
    request_response_full 1 "chat/models" "null"
        [mkErrorResponse 1 (-32600) "Invalid Request"] = (1, 2, none)
    ∧ "RemoteError" ∉ codypyExceptionNames :=
  ⟨by decide, by decide⟩

/-- Claim C4, amended.  An error-envelope response has no `result` key, so
the correlation loop skips it exactly like a notification; the error code and
message are never surfaced, the call's outcome is as if the frame had not
arrived (first conjunct), and a call that receives only the error envelope
returns `None` after the timeout (second conjunct).  The documented
`RemoteError` does not exist in the code (third conjunct). -/
theorem C4_error_envelope_skipped (pre post : List JsonObj) (id : Nat)
    (code : Int) (msg : String) :
    request_response (pre ++ mkErrorResponse id code msg :: post) =
      request_response (pre ++ post)
    ∧ request_response [mkErrorResponse id code msg] = none
    ∧ "RemoteError" ∉ codypyExceptionNames := by
  refine ⟨?_, request_response_none _ (by simp [mkErrorResponse]), by decide⟩
  induction pre with
  | nil =>
    rw [request_response, request_response, handle_server_respones,
      handle_server_respones, List.nil_append, List.nil_append,
      List.cons_append,
      request_response_loop_skip (mkErrorResponse id code msg)
        (post ++ [emptyObj]) rfl]
  | cons f fs ih =>
    rw [request_response, request_response, handle_server_respones,
      handle_server_respones] at ih ⊢
    rw [List.cons_append, List.cons_append, List.cons_append, List.cons_append,
      request_response_loop, request_response_loop]
    by_cases hc : (jsonTruthy f && has_result f) = true
    · rw [if_pos hc, if_pos hc]
    · rw [if_neg hc, if_neg hc]
      exact ih

/-- Claim C5.  The module-level counter starts at 1 and is incremented exactly
once per (successful) request, independently of the method sent: across `N`
sequential sends the ids observed on the wire are exactly `1, 2, ..., N`,
with no repeats. -/
theorem C5_ids_monotonic (ms : List String) :
    runSends MESSAGE_ID ms = List.range' 1 ms.length
    ∧ (runSends MESSAGE_ID ms).Nodup := by
  have h : runSends MESSAGE_ID ms = List.range' 1 ms.length :=
    runSends_eq_range ms 1
  exact ⟨h, h ▸ List.nodup_range' 1 ms.length 1 Nat.one_pos⟩

/-- Claim C6.  In TCP mode the connect loop makes at most
`retry_attempts = 5` attempts with a 1-second sleep after each refusal.
If the first `N` attempts are refused and attempt `N + 1` (still within the
budget) succeeds, the connection is established after `N + 1` attempts and
`N` sleeps; if all 5 attempts are refused, the loop raises
`ServerTCPConnectionError` — the error the spec taxonomy calls
`ConnectionError` — and never tries again. -/
theorem C6_tcp_retry (N : Nat) (refused allRefused : Nat → Bool)
    (hN : N < retry_attempts)
    (hbefore : ∀ k, k < N → refused k = true)
    (hsucc : refused N = false)
    (hall : ∀ k, k < retry_attempts → allRefused k = true) :
    tcpConnect refused = Except.ok (ConnOutcome.connected (N + 1) N)
    ∧ tcpConnect allRefused =
        Except.error CodypyException.serverTCPConnectionError := by
  have hr : List.range retry_attempts = [0, 1, 2, 3, 4] := rfl
  constructor
  · rw [retry_attempts] at hN
    unfold tcpConnect
    rw [hr]
    interval_cases N
    · simp [tcpConnectIter, hsucc]
    · simp [tcpConnectIter, retry_attempts, hsucc, hbefore 0 (by omega)]
    · simp [tcpConnectIter, retry_attempts, hsucc, hbefore 0 (by omega),
        hbefore 1 (by omega)]
    · simp [tcpConnectIter, retry_attempts, hsucc, hbefore 0 (by omega),
        hbefore 1 (by omega), hbefore 2 (by omega)]
    · simp [tcpConnectIter, retry_attempts, hsucc, hbefore 0 (by omega),
        hbefore 1 (by omega), hbefore 2 (by omega), hbefore 3 (by omega)]
  · unfold tcpConnect
    rw [hr]
    simp [tcpConnectIter, retry_attempts, hall 0 (by decide), hall 1 (by decide),
      hall 2 (by decide), hall 3 (by decide), hall 4 (by decide)]

/-- Witness for C6: two refusals then success connects on attempt 3 after two
sleeps; five refusals raise `ServerTCPConnectionError`. -/
theorem C6_tcp_retry_witness :
    tcpConnect (fun k => decide (k < 2)) = Except.ok (ConnOutcome.connected 3 2)
    ∧ tcpConnect (fun _ => true) =
        Except.error CodypyException.serverTCPConnectionError :=
  C6_tcp_retry 2 (fun k => decide (k < 2)) (fun _ => true) (by decide)
    (fun k hk => decide_eq_true hk) (by decide) (fun k _ => rfl)

/-- Claim C7, counterexample.  The claim states that a header block without a
`Content-Length` field, an unparseable declared length, or a JSON-unparseable
body make the decode step fail with `FramingError`.  The code raises the
Python builtins instead: `split("Content-Length:")[1]` raises `IndexError`
on a header without the field, `int(...)` raises `ValueError` on an
unparseable length (and `pydantic_core.from_json` raises `ValueError` on a
bad body), while no `FramingError` class exists anywhere in
`codypy/exceptions.py`, so no path can raise one. -/
theorem C7_counterexample :
    receive_jsonrpc_messages (asciiBytes "X-Other: 3\r\n\r\nabc") =
      Except.error RecvErr.indexError
    ∧ receive_jsonrpc_messages (asciiBytes "Content-Length: zz\r\n\r\nabc") =
      Except.error RecvErr.valueError
    ∧ "FramingError" ∉ codypyExceptionNames :=
  ⟨rfl, rfl, by decide⟩

/-- Claim C7, amended.  For any frame whose header block ends at the first
terminator: when the header lacks the `Content-Length` field the decode fails
with the builtin `IndexError`, and when the declared length does not parse it
fails with the builtin `ValueError` — never with a `FramingError`, which does
not exist in the codebase. -/
theorem C7_decode_errors (hdr tail : List Nat)
    (hterm : findSeq TERM (hdr ++ TERM) = some hdr.length) :
    (parseContentLength (hdr ++ TERM) = Except.error RecvErr.indexError →
      receive_jsonrpc_messages (hdr ++ TERM ++ tail) =
        Except.error RecvErr.indexError)
    ∧ (parseContentLength (hdr ++ TERM) = Except.error RecvErr.valueError →
      receive_jsonrpc_messages (hdr ++ TERM ++ tail) =
        Except.error RecvErr.valueError)
    ∧ "FramingError" ∉ codypyExceptionNames := by
  refine ⟨fun h => ?_, fun h => ?_, by decide⟩ <;>
    rw [receive_split hdr tail hterm, h]

/-- Witness for the amended C7: a header with no `Content-Length` field gives
`IndexError`; one with `Content-Length: zz` gives `ValueError`. -/
theorem C7_decode_errors_witness :
    receive_jsonrpc_messages (asciiBytes "X-Other: 3" ++ TERM ++ asciiBytes "ab") =
      Except.error RecvErr.indexError
    ∧ receive_jsonrpc_messages
        (asciiBytes "Content-Length: zz" ++ TERM ++ asciiBytes "ab") =
      Except.error RecvErr.valueError :=
  ⟨(C7_decode_errors (asciiBytes "X-Other: 3") (asciiBytes "ab")
      (by decide)).1 (by rfl),
   (C7_decode_errors (asciiBytes "Content-Length: zz") (asciiBytes "ab")
      (by decide)).2.1 (by rfl)⟩

/-- Claim C8.  A successful decode consumes exactly the header bytes up to
and including the first `\r\n\r\n` terminator plus exactly the declared
`Content-Length` bytes of body, and nothing more: whatever follows —
the next frame — is returned untouched as the new stream position. -/
theorem C8_exact_consumption (hdr body rest : List Nat) (n : Nat)
    (hterm : findSeq TERM (hdr ++ TERM) = some hdr.length)
    (hlen : parseContentLength (hdr ++ TERM) = Except.ok n)
    (hbody : body.length = n) :
    receive_jsonrpc_messages (hdr ++ TERM ++ (body ++ rest)) =
      Except.ok (body, rest) := by
  rw [receive_split hdr (body ++ rest) hterm, hlen]
  have hle : n ≤ (body ++ rest).length := by
    rw [List.length_append, hbody]
    omega
  simp only [readExactly, if_pos hle, List.take_left' hbody,
    List.drop_left' hbody]

/-- Witness for C8: a 5-byte body followed by the beginning of another frame;
the decode returns the body and leaves the follow-on bytes in place. -/
theorem C8_exact_consumption_witness :
    receive_jsonrpc_messages
        (asciiBytes "Content-Length: 5" ++ TERM ++
          (asciiBytes "hello" ++ asciiBytes "Content-Length:")) =
      Except.ok (asciiBytes "hello", asciiBytes "Content-Length:") :=
  C8_exact_consumption (asciiBytes "Content-Length: 5") (asciiBytes "hello")
    (asciiBytes "Content-Length:") 5 (by decide) (by rfl) (by decide)

/-- Claim C9.  `cleanup_server` (identical in `server.py` and `cody_py.py`)
always performs, in order: send the `shutdown` request, then terminate the
child process exactly when it has not already exited, then wait for process
exit; when it returns, the process has an exit code, i.e. cleanup never
returns while the child is still alive. -/
theorem C9_cleanup_order (p : ProcState) :
    (p.returncode = none →
      (cleanup_server p).1 =
        [CleanupStep.sendShutdown, CleanupStep.terminate, CleanupStep.waitExit])
    ∧ (p.returncode ≠ none →
      (cleanup_server p).1 = [CleanupStep.sendShutdown, CleanupStep.waitExit])
    ∧ ((cleanup_server p).2).returncode.isSome = true := by
  obtain ⟨rc⟩ := p
  cases rc <;> simp [cleanup_server]

/-- Witness for C9: a live process is terminated then awaited; an
already-exited one is only awaited; either way the final state has an exit
code. -/
theorem C9_cleanup_order_witness :
    (cleanup_server { returncode := none }).1 =
      [CleanupStep.sendShutdown, CleanupStep.terminate, CleanupStep.waitExit]
    ∧ (cleanup_server { returncode := some 0 }).1 =
      [CleanupStep.sendShutdown, CleanupStep.waitExit]
    ∧ ((cleanup_server { returncode := none }).2).returncode.isSome = true :=
  ⟨(C9_cleanup_order { returncode := none }).1 rfl,
   (C9_cleanup_order { returncode := some 0 }).2.1 (by simp),
   (C9_cleanup_order { returncode := none }).2.2⟩

/-- Claim C10.  `MESSAGE_ID += 1` runs only after `writer.write` and
`writer.drain` have succeeded: a send whose write/drain raises leaves the
counter unchanged and produces no incremented state, so the next successful
send uses the very same id; a successful send uses the current counter value
as id and increments the counter by one. -/
theorem C10_counter_unchanged_on_failure (c : Nat) (m p : String) :
    (send_jsonrpc_request c m p false).2 = c
    ∧ (send_jsonrpc_request c m p false).1 = Except.error ()
    ∧ (send_jsonrpc_request ((send_jsonrpc_request c m p false).2) m p true).1 =
        Except.ok (c, content_message (jsonSerialize c m p))
    ∧ (send_jsonrpc_request c m p true).2 = c + 1 :=
  ⟨rfl, rfl, rfl, rfl⟩

end Codypy

